import Mathlib

/-!
Verification development for the bytewax execution core
(`src/execution/mod.rs`).

The development shallowly embeds the build-and-run subsystem:

* `build_production_dataflow` is modelled as a fold over the blueprint
  step list that threads a compiler state (`BState`) and produces an
  ordered trace of observable events (`Event`): operator constructions,
  progress writes, the residual-state warning, and the recovery attach.
* operator bodies supplied by the embedded scripting host (mappers,
  reducers, clocks, windowers, sources, sinks) are out of scope per the
  specification; blueprint steps therefore carry the *results* of those
  collaborators: a boolean build outcome for each fallible builder and
  the record lists the out-of-scope operators produce.
* `spawn_cluster` and the communication-fabric selection of
  `cluster_main` are modelled as pure decision functions over their
  arguments.
-/

namespace Bytewax

/-! ## Data model (mod.rs lines 64-97 and crate::recovery::model) -/

/-- Opaque stable identifier assigned to a step in the blueprint. -/
abbrev StepId := String

/-- Logical key under which per-record state is partitioned. -/
abbrev StateKey := String

/-- Serialized operator state (a byte vector in the source). -/
abbrev StateBytes := List Nat

/-- Mapping from step id to serialized operator state, modelled as an
association list with unique keys (the source uses a hash map). -/
abbrev FlowStateBytes := List (StepId × StateBytes)

/-- Host-language values flowing through the dataflow.  `PyObj.none` is
the null sentinel tested by `item.is_none(py)`; `PyObj.pair` models the
two-tuples handled by `extract_state_pair` and `wrap_state_pair`. -/
inductive PyObj where
  | none : PyObj
  | int : Int → PyObj
  | str : String → PyObj
  | pair : PyObj → PyObj → PyObj
deriving DecidableEq, Repr

/-- Model of `crate::pyo3_extensions::wrap_state_pair`: re-wrap a
`(key, value)` state pair into the host-language tuple carried
downstream. -/
def wrap_state_pair : StateKey × PyObj → PyObj
  | (k, v) => PyObj.pair (PyObj.str k) v

/-- Model of `crate::pyo3_extensions::extract_state_pair`: split a
host-language two-tuple into a `(key, value)` state pair.  The keyed
stream it produces feeds the out-of-scope stateful operators. -/
def extract_state_pair : PyObj → StateKey × PyObj
  | PyObj.pair (PyObj.str k) v => (k, v)
  | _ => ("", PyObj.none)

/-- Error attached to a late or otherwise rejected windowed value
(`InsertError` in the window module; only its presence matters here). -/
inductive WindowError where
  | late : Nat → WindowError
deriving DecidableEq, Repr

/-- Index of this worker in the cluster together with the total worker
count (`worker.index()` and `worker.peers()` in the source). -/
structure WorkerCtx where
  workerIndex : Nat
  workerCount : Nat
deriving DecidableEq, Repr

/-- `ResumeFrom(ex, resume_epoch)`: execution generation and the
earliest epoch whose outputs must be re-derived. -/
structure ResumeFrom where
  ex : Nat
  resumeEpoch : Nat
deriving DecidableEq, Repr

/-- `WorkerKey(ex, worker_index)` keying progress log entries. -/
structure WorkerKey where
  ex : Nat
  index : Nat
deriving DecidableEq, Repr

/-- Progress log payloads.  The initialization upsert carries the
worker count and the resume epoch. -/
inductive ProgressMsg where
  | init (workerCount : Nat) (resumeEpoch : Nat)
  | advance (epoch : Nat)
deriving DecidableEq, Repr

/-- `Change::Upsert(..)` or `Change::Discard` on a keyed store. -/
inductive ProgressChange where
  | upsert (msg : ProgressMsg)
  | delete
deriving DecidableEq, Repr

/-- `KChange(worker_key, change)`: one progress log write. -/
structure KChange where
  key : WorkerKey
  change : ProgressChange
deriving DecidableEq, Repr

/-! ## Blueprint steps (crate::dataflow::Step)

Each constructor mirrors one variant of the Rust `Step` enum.  Fields
of the Rust variants that are host-language callables appear as Lean
functions; fallible builder calls (clock, windower, partitioned or
dynamic source and sink) appear as boolean build outcomes, and the
record streams that out-of-scope operators produce appear as lists.
These stand-in fields are blueprint-level data: the source passes the
worker identity *into* those collaborators, but whether and what they
build is owned by out-of-scope code, so it is recorded in the step. -/

/-- Shape of the `input` object of an `Input` step, as discovered by the
two `extract` attempts in the source (lines 197 and 217): a
`PartitionedInput`, a `DynamicInput`, or neither. -/
inductive InputConf where
  | partitioned (buildOk : Bool) (records : List PyObj)
  | dynamic (buildOk : Bool) (records : List PyObj)
  | unknown

/-- Shape of the `output` object of an `Output` step, as discovered by
the two `extract` attempts in the source (lines 364 and 382). -/
inductive OutputConf where
  | partitioned (buildOk : Bool) (downstream : List PyObj)
  | dynamic (buildOk : Bool) (downstream : List PyObj)
  | unknown

/-- One blueprint step (`crate::dataflow::Step`). -/
inductive Step where
  | input (step_id : StepId) (conf : InputConf)
  | map (mapper : PyObj → PyObj)
  | flatMap (mapper : PyObj → List PyObj)
  | filter (predicate : PyObj → Bool)
  | filterMap (mapper : PyObj → PyObj)
  | inspect
  | inspectEpoch
  | reduce (step_id : StepId) (unaryOut : List (StateKey × PyObj))
  | statefulMap (step_id : StepId) (unaryOut : List (StateKey × PyObj))
  | collectWindow (step_id : StepId) (clockOk windowerOk : Bool)
      (winOut : List (StateKey × Except WindowError PyObj))
  | foldWindow (step_id : StepId) (clockOk windowerOk : Bool)
      (winOut : List (StateKey × Except WindowError PyObj))
  | reduceWindow (step_id : StepId) (clockOk windowerOk : Bool)
      (winOut : List (StateKey × Except WindowError PyObj))
  | output (step_id : StepId) (conf : OutputConf)

/-! ## Errors and observable events -/

/-- Build-time errors of `build_production_dataflow`, named after the
concrete error classes raised in the source: `tracked_err::<PyTypeError>`,
`tracked_err::<PyValueError>`, and builder failures annotated by
`reraise` (the BuildError kind of the specification taxonomy). -/
inductive BuildErr where
  | typeError (msg : String)
  | valueError (msg : String)
  | buildError (msg : String)
deriving DecidableEq, Repr

/-- Tag of one Timely operator construction performed by the compiler. -/
inductive OpTag where
  | toStream
  | mapOp
  | flatMapOp
  | filterOp
  | inspectOp
  | inspectEpochOp
  | partitionedInput (sid : StepId)
  | dynamicInput (sid : StepId)
  | statefulUnary (sid : StepId)
  | statefulWindowUnary (sid : StepId)
  | okOp
  | partitionedOutput (sid : StepId)
  | dynamicOutput (sid : StepId)
  | concatenate (count : Nat)
deriving DecidableEq, Repr

/-- Observable events of one invocation of the compiler, in program
order: writes of the initial progress change to the in-memory mirror
and the durable writer, entry into the Timely scope closure, operator
constructions, the residual-state warning, and the recovery attach. -/
inductive Event where
  | progressMirrorWrite (c : KChange)
  | progressWriterWrite (c : KChange)
  | scopeBegin
  | opBuilt (t : OpTag)
  | warned (orphans : List StepId)
  | attached
deriving DecidableEq, Repr

/-- True exactly on operator-construction events. -/
def isOpBuilt : Event → Bool
  | Event.opBuilt _ => true
  | _ => false

/-- True exactly on writes to the in-memory progress mirror. -/
def isProgressMirrorWrite : Event → Bool
  | Event.progressMirrorWrite _ => true
  | _ => false

/-- True exactly on writes to the durable progress writer. -/
def isProgressWriterWrite : Event → Bool
  | Event.progressWriterWrite _ => true
  | _ => false

/-- True on every event other than entry into the Timely scope. -/
def notScope : Event → Bool
  | Event.scopeBegin => false
  | _ => true

/-- Projection of an event trace to the operator-construction trace. -/
def opTrace (evs : List Event) : List OpTag :=
  evs.filterMap (fun e =>
    match e with
    | Event.opBuilt t => some t
    | _ => none)

/-! ## Per-step stream transforms taken literally from the source -/

/-- Model of the `FilterMap` arm (lines 246-250): map the user function
over the stream, then keep only records that are not the host-language
null sentinel (`!item.is_none(py)`). -/
def filterMapStep (mapper : PyObj → PyObj) (stream : List PyObj) : List PyObj :=
  (stream.map mapper).filter (fun item => decide (item ≠ PyObj.none))

/-- Model of the closure at lines 185-189: distribute the key over the
windowed result, turning `(key, Result)` into `Result<(key, value), (key, err)>`. -/
def rekeyWindowResult (kr : StateKey × Except WindowError PyObj) :
    Except (StateKey × WindowError) (StateKey × PyObj) :=
  match kr with
  | (k, Except.ok v) => Except.ok (k, v)
  | (k, Except.error e) => Except.error (k, e)

/-- Model of Timely `ResultStream::ok` (the `.ok()` call at lines 192
and 284 and 343): keep the payloads of `Ok` results, drop every `Err`. -/
def streamOk (l : List (Except (StateKey × WindowError) (StateKey × PyObj))) :
    List (StateKey × PyObj) :=
  l.filterMap (fun r =>
    match r with
    | Except.ok p => some p
    | Except.error _ => none)

/-- Downstream stream of a windowed step: the post-processing chain
`output.map(rekey).ok().map(wrap_state_pair)` applied to whatever the
out-of-scope `stateful_window_unary` operator emitted. -/
def windowStepDownstream (out : List (StateKey × Except WindowError PyObj)) : List PyObj :=
  (streamOk (out.map rekeyWindowResult)).map wrap_state_pair

/-! ## Compiler state and the step loop -/

/-- State threaded through the step loop of `build_production_dataflow`:
the current records stream, the number of registered input handles and
output clock streams (only emptiness and count are consulted by the
source), the number of captured step-changes streams, and the
still-unconsumed resume state. -/
structure BState where
  stream : List PyObj
  inputs : Nat
  outputs : Nat
  stepChanges : Nat
  resumeState : FlowStateBytes

/-- Model of `resume_state.remove(&step_id)`: drop the entry of the
given step id (keys are unique, so the filter removes exactly it). -/
def removeState (rs : FlowStateBytes) (sid : StepId) : FlowStateBytes :=
  rs.filter (fun kv => decide (kv.1 ≠ sid))

/-- The step id whose resume-state entry a step consumes, when the step
is stateful: partitioned input, reduce, stateful map, the three
windowed steps, and partitioned output.  Dynamic inputs and outputs and
unrecognized shapes consume nothing. -/
def stepStatefulId : Step → Option StepId
  | Step.input sid (InputConf.partitioned _ _) => some sid
  | Step.reduce sid _ => some sid
  | Step.statefulMap sid _ => some sid
  | Step.collectWindow sid _ _ _ => some sid
  | Step.foldWindow sid _ _ _ => some sid
  | Step.reduceWindow sid _ _ _ => some sid
  | Step.output sid (OutputConf.partitioned _ _) => some sid
  | _ => none

/-- Step ids of the stateful steps of a blueprint, in order. -/
def statefulIds (flow : List Step) : List StepId :=
  flow.filterMap stepStatefulId

/-- One iteration of the step loop (the `match step` at lines 160-394).
Returns the updated state, the operator constructions performed in
order, and the error aborting compilation, if any.  Mutation order
follows the source: stateful steps first remove their resume state,
then run their fallible builders, then construct operators. -/
def runStep : Step → BState → BState × List Event × Option BuildErr
  | Step.input sid conf, st =>
    match conf with
    | InputConf.partitioned buildOk records =>
      let st1 : BState := { st with resumeState := removeState st.resumeState sid }
      if buildOk then
        ({ st1 with
            inputs := st1.inputs + 1
            stream := records
            stepChanges := st1.stepChanges + 1 },
         [Event.opBuilt (OpTag.partitionedInput sid)], none)
      else
        (st1, [], some (BuildErr.buildError "error building PartitionedInput"))
    | InputConf.dynamic buildOk records =>
      if buildOk then
        ({ st with inputs := st.inputs + 1, stream := records },
         [Event.opBuilt (OpTag.dynamicInput sid)], none)
      else
        (st, [], some (BuildErr.buildError "error building DynamicInput"))
    | InputConf.unknown =>
      (st, [], some (BuildErr.typeError "unknown input type"))
  | Step.map mapper, st =>
    ({ st with stream := st.stream.map mapper }, [Event.opBuilt OpTag.mapOp], none)
  | Step.flatMap mapper, st =>
    ({ st with stream := st.stream.flatMap mapper }, [Event.opBuilt OpTag.flatMapOp], none)
  | Step.filter predicate, st =>
    ({ st with stream := st.stream.filter predicate }, [Event.opBuilt OpTag.filterOp], none)
  | Step.filterMap mapper, st =>
    ({ st with stream := filterMapStep mapper st.stream },
     [Event.opBuilt OpTag.mapOp, Event.opBuilt OpTag.filterOp], none)
  | Step.inspect, st =>
    (st, [Event.opBuilt OpTag.inspectOp], none)
  | Step.inspectEpoch, st =>
    (st, [Event.opBuilt OpTag.inspectEpochOp], none)
  | Step.reduce sid unaryOut, st =>
    let st1 : BState := { st with resumeState := removeState st.resumeState sid }
    ({ st1 with
        stream := unaryOut.map wrap_state_pair
        stepChanges := st1.stepChanges + 1 },
     [Event.opBuilt OpTag.mapOp, Event.opBuilt (OpTag.statefulUnary sid),
      Event.opBuilt OpTag.mapOp], none)
  | Step.statefulMap sid unaryOut, st =>
    let st1 : BState := { st with resumeState := removeState st.resumeState sid }
    ({ st1 with
        stream := unaryOut.map wrap_state_pair
        stepChanges := st1.stepChanges + 1 },
     [Event.opBuilt OpTag.mapOp, Event.opBuilt (OpTag.statefulUnary sid),
      Event.opBuilt OpTag.mapOp], none)
  | Step.collectWindow sid clockOk windowerOk winOut, st =>
    let st1 : BState := { st with resumeState := removeState st.resumeState sid }
    if clockOk then
      if windowerOk then
        ({ st1 with
            stream := windowStepDownstream winOut
            stepChanges := st1.stepChanges + 1 },
         [Event.opBuilt OpTag.mapOp, Event.opBuilt (OpTag.statefulWindowUnary sid),
          Event.opBuilt OpTag.mapOp, Event.opBuilt OpTag.okOp, Event.opBuilt OpTag.mapOp],
         none)
      else
        (st1, [], some (BuildErr.buildError "error building CollectWindow windower"))
    else
      (st1, [], some (BuildErr.buildError "error building CollectWindow clock"))
  | Step.foldWindow sid clockOk windowerOk winOut, st =>
    let st1 : BState := { st with resumeState := removeState st.resumeState sid }
    if clockOk then
      if windowerOk then
        ({ st1 with
            stream := windowStepDownstream winOut
            stepChanges := st1.stepChanges + 1 },
         [Event.opBuilt OpTag.mapOp, Event.opBuilt (OpTag.statefulWindowUnary sid),
          Event.opBuilt OpTag.mapOp, Event.opBuilt OpTag.okOp, Event.opBuilt OpTag.mapOp],
         none)
      else
        (st1, [], some (BuildErr.buildError "error building FoldWindow windower"))
    else
      (st1, [], some (BuildErr.buildError "error building FoldWindow clock"))
  | Step.reduceWindow sid clockOk windowerOk winOut, st =>
    let st1 : BState := { st with resumeState := removeState st.resumeState sid }
    if clockOk then
      if windowerOk then
        ({ st1 with
            stream := windowStepDownstream winOut
            stepChanges := st1.stepChanges + 1 },
         [Event.opBuilt OpTag.mapOp, Event.opBuilt (OpTag.statefulWindowUnary sid),
          Event.opBuilt OpTag.mapOp, Event.opBuilt OpTag.okOp, Event.opBuilt OpTag.mapOp],
         none)
      else
        (st1, [], some (BuildErr.buildError "error building ReduceWindow windower"))
    else
      (st1, [], some (BuildErr.buildError "error building ReduceWindow clock"))
  | Step.output sid conf, st =>
    match conf with
    | OutputConf.partitioned buildOk downstream =>
      let st1 : BState := { st with resumeState := removeState st.resumeState sid }
      if buildOk then
        ({ st1 with
            outputs := st1.outputs + 1
            stepChanges := st1.stepChanges + 1
            stream := downstream },
         [Event.opBuilt (OpTag.partitionedOutput sid), Event.opBuilt OpTag.mapOp], none)
      else
        (st1, [], some (BuildErr.buildError "error building PartitionedOutput"))
    | OutputConf.dynamic buildOk downstream =>
      if buildOk then
        ({ st with outputs := st.outputs + 1, stream := downstream },
         [Event.opBuilt (OpTag.dynamicOutput sid), Event.opBuilt OpTag.mapOp], none)
      else
        (st, [], some (BuildErr.buildError "error building DynamicOutput"))
    | OutputConf.unknown =>
      (st, [], some (BuildErr.typeError "unknown output type"))

/-- The step loop: run each step in order, accumulating events, and
stop at the first error (the `?` early return of the source). -/
def runSteps : List Step → BState → BState × List Event × Option BuildErr
  | [], st => (st, [], none)
  | s :: rest, st =>
    let r1 := runStep s st
    match r1.2.2 with
    | some e => (r1.1, r1.2.1, some e)
    | none =>
      let r2 := runSteps rest r1.1
      (r2.1, r1.2.1 ++ r2.2.1, r2.2.2)

/-- The initialization progress change synthesized at lines 131-134:
`KChange(worker_key, Upsert(Init(worker_count, resume_epoch)))` with
`worker_key = WorkerKey(ex, worker_index)`. -/
def initProgressChange (ctx : WorkerCtx) (rf : ResumeFrom) : KChange :=
  { key := { ex := rf.ex, index := ctx.workerIndex }
    change := ProgressChange.upsert (ProgressMsg.init ctx.workerCount rf.resumeEpoch) }

/-- Events preceding and entering the Timely scope: the write of the
initialization progress change to the in-memory mirror (line 135), the
write to the durable progress writer (line 136), entry into
`worker.dataflow` (line 142), and the initial empty stream construction
`None.to_stream(scope)` (line 152). -/
def initEvents (ctx : WorkerCtx) (rf : ResumeFrom) : List Event :=
  [Event.progressMirrorWrite (initProgressChange ctx rf),
   Event.progressWriterWrite (initProgressChange ctx rf),
   Event.scopeBegin,
   Event.opBuilt OpTag.toStream]

/-- Compiler state at the top of the step loop (lines 146-152). -/
def initBState (rs : FlowStateBytes) : BState :=
  { stream := [], inputs := 0, outputs := 0, stepChanges := 0, resumeState := rs }

/-- Model of `build_production_dataflow`: write the initial progress
change, enter the scope, run the step loop, then validate that at least
one input and one output were registered, warn about residual resume
state, concatenate the step-changes and output streams, and attach
recovery.  Returns the final compiler state, the full event trace, and
the error if compilation failed. -/
def build_production_dataflow (ctx : WorkerCtx) (flow : List Step) (rf : ResumeFrom)
    (rs : FlowStateBytes) : BState × List Event × Option BuildErr :=
  let r := runSteps flow (initBState rs)
  let st := r.1
  let evs := r.2.1
  match r.2.2 with
  | some e => (st, initEvents ctx rf ++ evs, some e)
  | none =>
    if st.inputs = 0 then
      (st, initEvents ctx rf ++ evs,
       some (BuildErr.valueError "Dataflow needs to contain at least one input"))
    else if st.outputs = 0 then
      (st, initEvents ctx rf ++ evs,
       some (BuildErr.valueError "Dataflow needs to contain at least one output"))
    else
      (st,
       initEvents ctx rf ++ evs
         ++ (if st.resumeState.isEmpty then []
             else [Event.warned (st.resumeState.map Prod.fst)])
         ++ [Event.opBuilt (OpTag.concatenate st.stepChanges),
             Event.opBuilt (OpTag.concatenate st.outputs),
             Event.attached],
       none)

/-! ## Drivers: cluster_main fabric selection and spawn_cluster -/

/-- Timely communication configuration selected by `cluster_main`
(lines 664-678): in-process threads, or a TCP cluster of
`host:port` peers with a process index. -/
inductive CommunicationConfig where
  | process (threads : Nat)
  | cluster (threads : Nat) (procIndex : Nat) (addresses : List String)
deriving DecidableEq, Repr

/-- The fabric selection of `cluster_main`: default a missing address
list to empty; when empty build an in-process fabric with
`worker_count_per_proc` threads, otherwise a TCP cluster configuration
with the given thread count, process index, and address list. -/
def clusterMainCommConfig (addresses : Option (List String)) (procId : Nat)
    (workerCountPerProc : Nat) : CommunicationConfig :=
  let addrs := addresses.getD []
  if addrs.isEmpty then
    CommunicationConfig.process workerCountPerProc
  else
    CommunicationConfig.cluster workerCountPerProc procId addrs

/-- Arguments of one `spawn_cluster` call, together with the two pieces
of ambient state it consults: the caller-introspection result
`is_in_bytewax_run` and the `__BYTEWAX_PROC_ID` environment variable
(written by the supervisor as a decimal worker index, modelled
numerically). -/
structure SpawnArgs where
  processes : Option Nat
  workersPerProcess : Option Nat
  processId : Option Nat
  addresses : Option (List String)
  inBytewaxRun : Bool
  envProcId : Option Nat
deriving DecidableEq, Repr

/-- What `spawn_cluster` delegates to once its checks pass: the
single-worker in-thread driver, `cluster_main` with explicit placement,
`cluster_main` as a supervised child, or forking child processes. -/
inductive SpawnPlan where
  | runMain
  | clusterMain (addresses : Option (List String)) (procId : Nat) (workersPerProc : Nat)
  | childClusterMain (addresses : List String) (procId : Nat) (workersPerProc : Nat)
  | superviseChildren (processes : Nat) (addresses : List String)
deriving DecidableEq, Repr

/-- Errors returned by `spawn_cluster` before any worker starts. -/
inductive SpawnErr where
  | runtimeError (msg : String)
deriving DecidableEq, Repr

/-- Message of the launcher check (lines 792-797). -/
def launcherErrMsg : String :=
  "You shouldn\x27t use spawn_cluster directly, see `python -m bytewax.run --help` instead"

/-- Message of the topology-versus-placement conflict check
(lines 800-806). -/
def conflictErrMsg : String :=
  "Can\x27t specify both \x27processes/workers_per_process\x27 and \x27process_id/addresses\x27"

/-- The synthesized local cluster addresses `localhost:PORT+i`
(lines 827-829; the base port is 2101). -/
def clusterAddresses (processes : Nat) : List String :=
  (List.range processes).map (fun procId => "localhost:" ++ toString (procId + 2101))

/-- Model of `spawn_cluster` (lines 782-887): the launcher check, the
conflict check, then dispatch on `process_id`, the environment variable,
and the effective process and worker counts. -/
def spawn_cluster (args : SpawnArgs) : Except SpawnErr SpawnPlan :=
  if args.inBytewaxRun = false then
    Except.error (SpawnErr.runtimeError launcherErrMsg)
  else if (args.processes.isSome || args.workersPerProcess.isSome)
      && (args.processId.isSome || args.addresses.isSome) then
    Except.error (SpawnErr.runtimeError conflictErrMsg)
  else
    match args.processId with
    | some procId =>
      Except.ok (SpawnPlan.clusterMain args.addresses procId
        (args.workersPerProcess.getD 1))
    | none =>
      let processes := args.processes.getD 1
      let workersPerProcess := args.workersPerProcess.getD 1
      if processes = 1 && workersPerProcess = 1 then
        Except.ok SpawnPlan.runMain
      else
        let addrs := clusterAddresses processes
        match args.envProcId with
        | some procId =>
          Except.ok (SpawnPlan.childClusterMain addrs procId workersPerProcess)
        | none =>
          Except.ok (SpawnPlan.superviseChildren processes addrs)

/-- Worker threads started in the calling process by each plan:
`run_main` executes directly with a single worker on the calling thread;
both `cluster_main` forms start `workers_per_process` threads; the
supervisor starts none itself. -/
def planWorkerThreads : SpawnPlan → Nat
  | SpawnPlan.runMain => 1
  | SpawnPlan.clusterMain _ _ w => w
  | SpawnPlan.childClusterMain _ _ w => w
  | SpawnPlan.superviseChildren _ _ => 0

/-- Child processes forked by each plan: only the supervisor branch
spawns children. -/
def planChildProcesses : SpawnPlan → Nat
  | SpawnPlan.superviseChildren n _ => n
  | _ => 0

/-- Cluster addresses handed to the communication fabric by each plan. -/
def planClusterAddresses : SpawnPlan → List String
  | SpawnPlan.runMain => []
  | SpawnPlan.clusterMain a _ _ => a.getD []
  | SpawnPlan.childClusterMain a _ _ => a
  | SpawnPlan.superviseChildren _ a => a

/-! ## Helper lemmas about the step loop -/

theorem runSteps_nil (st : BState) : runSteps [] st = (st, [], none) := rfl

theorem runSteps_cons_err {e : BuildErr} (s : Step) (rest : List Step) (st : BState)
    (h : (runStep s st).2.2 = some e) :
    runSteps (s :: rest) st = ((runStep s st).1, (runStep s st).2.1, some e) := by
  simp [runSteps, h]

theorem runSteps_cons_ok (s : Step) (rest : List Step) (st : BState)
    (h : (runStep s st).2.2 = none) :
    runSteps (s :: rest) st
      = ((runSteps rest (runStep s st).1).1,
         (runStep s st).2.1 ++ (runSteps rest (runStep s st).1).2.1,
         (runSteps rest (runStep s st).1).2.2) := by
  simp [runSteps, h]

/-- Every event emitted inside the step loop is an operator
construction: progress writes, warnings and the recovery attach happen
outside the loop. -/
theorem runStep_events_opBuilt (s : Step) (st : BState) :
    ∀ e ∈ (runStep s st).2.1, isOpBuilt e = true := by
  cases s with
  | input sid conf =>
    cases conf with
    | partitioned b r => cases b <;> simp [runStep, isOpBuilt]
    | dynamic b r => cases b <;> simp [runStep, isOpBuilt]
    | unknown => simp [runStep]
  | map m => simp [runStep, isOpBuilt]
  | flatMap m => simp [runStep, isOpBuilt]
  | filter p => simp [runStep, isOpBuilt]
  | filterMap m => simp [runStep, isOpBuilt]
  | inspect => simp [runStep, isOpBuilt]
  | inspectEpoch => simp [runStep, isOpBuilt]
  | reduce sid uo => simp [runStep, isOpBuilt]
  | statefulMap sid uo => simp [runStep, isOpBuilt]
  | collectWindow sid c w out => cases c <;> cases w <;> simp [runStep, isOpBuilt]
  | foldWindow sid c w out => cases c <;> cases w <;> simp [runStep, isOpBuilt]
  | reduceWindow sid c w out => cases c <;> cases w <;> simp [runStep, isOpBuilt]
  | output sid conf =>
    cases conf with
    | partitioned b d => cases b <;> simp [runStep, isOpBuilt]
    | dynamic b d => cases b <;> simp [runStep, isOpBuilt]
    | unknown => simp [runStep]

theorem runSteps_events_opBuilt (flow : List Step) :
    ∀ st, ∀ e ∈ (runSteps flow st).2.1, isOpBuilt e = true := by
  induction flow with
  | nil => intro st e he; simp [runSteps] at he
  | cons s rest ih =>
    intro st e he
    rcases h1 : (runStep s st).2.2 with _ | e1
    · rw [runSteps_cons_ok s rest st h1] at he
      rcases List.mem_append.mp he with h2 | h2
      · exact runStep_events_opBuilt s st e h2
      · exact ih (runStep s st).1 e h2
    · rw [runSteps_cons_err s rest st h1] at he
      exact runStep_events_opBuilt s st e he

/-- A successful step consumes exactly the resume state of its own
step id (stateful steps), or none at all (stateless steps). -/
theorem runStep_resumeState (s : Step) (st : BState)
    (h : (runStep s st).2.2 = none) :
    (runStep s st).1.resumeState
      = (match stepStatefulId s with
         | some sid => removeState st.resumeState sid
         | none => st.resumeState) := by
  cases s with
  | input sid conf =>
    cases conf with
    | partitioned b r => cases b <;> simp_all [runStep, stepStatefulId]
    | dynamic b r => cases b <;> simp_all [runStep, stepStatefulId]
    | unknown => simp [runStep] at h
  | map m => simp [runStep, stepStatefulId]
  | flatMap m => simp [runStep, stepStatefulId]
  | filter p => simp [runStep, stepStatefulId]
  | filterMap m => simp [runStep, stepStatefulId]
  | inspect => simp [runStep, stepStatefulId]
  | inspectEpoch => simp [runStep, stepStatefulId]
  | reduce sid uo => simp [runStep, stepStatefulId]
  | statefulMap sid uo => simp [runStep, stepStatefulId]
  | collectWindow sid c w out => cases c <;> cases w <;> simp_all [runStep, stepStatefulId]
  | foldWindow sid c w out => cases c <;> cases w <;> simp_all [runStep, stepStatefulId]
  | reduceWindow sid c w out => cases c <;> cases w <;> simp_all [runStep, stepStatefulId]
  | output sid conf =>
    cases conf with
    | partitioned b d => cases b <;> simp_all [runStep, stepStatefulId]
    | dynamic b d => cases b <;> simp_all [runStep, stepStatefulId]
    | unknown => simp [runStep] at h

/-- Over a completed step loop, the residual resume state is the
initial resume state minus exactly the entries of the stateful steps. -/
theorem runSteps_resumeState (flow : List Step) :
    ∀ st, (runSteps flow st).2.2 = none →
      (runSteps flow st).1.resumeState
        = st.resumeState.filter (fun kv => decide (kv.1 ∉ statefulIds flow)) := by
  induction flow with
  | nil =>
    intro st _
    simp [runSteps, statefulIds]
  | cons s rest ih =>
    intro st h
    rcases h1 : (runStep s st).2.2 with _ | e1
    · rw [runSteps_cons_ok s rest st h1] at h ⊢
      rw [ih (runStep s st).1 h, runStep_resumeState s st h1]
      rcases h2 : stepStatefulId s with _ | sid
      · simp [statefulIds, List.filterMap_cons, h2]
      · simp only [statefulIds, List.filterMap_cons, h2, removeState, List.filter_filter]
        apply List.filter_congr
        intro kv _
        simp only [List.mem_cons, not_or, decide_not]
        cases hkv : decide (kv.1 = sid) <;> cases hmem : decide (kv.1 ∈ List.filterMap stepStatefulId rest) <;>
          simp_all
    · rw [runSteps_cons_err s rest st h1] at h
      simp at h

/-- Running a prefix that completes and then the rest of the steps is
running the whole list, with states threaded and events concatenated. -/
theorem runSteps_append_ok (xs ys : List Step) :
    ∀ st, (runSteps xs st).2.2 = none →
      runSteps (xs ++ ys) st
        = ((runSteps ys (runSteps xs st).1).1,
           (runSteps xs st).2.1 ++ (runSteps ys (runSteps xs st).1).2.1,
           (runSteps ys (runSteps xs st).1).2.2) := by
  induction xs with
  | nil => intro st _; simp [runSteps]
  | cons s rest ih =>
    intro st h
    rcases h1 : (runStep s st).2.2 with _ | e1
    · rw [runSteps_cons_ok s rest st h1] at h
      rw [List.cons_append, runSteps_cons_ok s (rest ++ ys) st h1,
          runSteps_cons_ok s rest st h1, ih (runStep s st).1 h]
      simp
    · rw [runSteps_cons_err s rest st h1] at h
      simp at h

theorem opBuilt_not_mirror {e : Event} (h : isOpBuilt e = true) :
    isProgressMirrorWrite e = false := by
  cases e <;> simp_all [isOpBuilt, isProgressMirrorWrite]

theorem opBuilt_not_writer {e : Event} (h : isOpBuilt e = true) :
    isProgressWriterWrite e = false := by
  cases e <;> simp_all [isOpBuilt, isProgressWriterWrite]

/-- The step loop performs no progress writes, emits no warning, and
never attaches recovery: those effects live outside the loop. -/
theorem attached_not_in_loop (flow : List Step) (st : BState) :
    Event.attached ∉ (runSteps flow st).2.1 := by
  intro hmem
  have h := runSteps_events_opBuilt flow st Event.attached hmem
  simp [isOpBuilt] at h

theorem warned_not_in_loop (flow : List Step) (st : BState) (ks : List StepId) :
    Event.warned ks ∉ (runSteps flow st).2.1 := by
  intro hmem
  have h := runSteps_events_opBuilt flow st (Event.warned ks) hmem
  simp [isOpBuilt] at h

theorem mirror_not_in_loop (flow : List Step) (st : BState) :
    (runSteps flow st).2.1.filter isProgressMirrorWrite = [] := by
  rw [List.filter_eq_nil_iff]
  intro e he
  have h := runSteps_events_opBuilt flow st e he
  simp [opBuilt_not_mirror h]

theorem writer_not_in_loop (flow : List Step) (st : BState) :
    (runSteps flow st).2.1.filter isProgressWriterWrite = [] := by
  rw [List.filter_eq_nil_iff]
  intro e he
  have h := runSteps_events_opBuilt flow st e he
  simp [opBuilt_not_writer h]

/-- The events before the scope entry are exactly the two progress
writes, whatever follows the scope entry. -/
theorem takeWhile_initEvents (ctx : WorkerCtx) (rf : ResumeFrom) (l : List Event) :
    (initEvents ctx rf ++ l).takeWhile notScope
      = [Event.progressMirrorWrite (initProgressChange ctx rf),
         Event.progressWriterWrite (initProgressChange ctx rf)] := rfl

theorem takeWhile_progress_cons (c1 c2 : KChange) (l : List Event) :
    (Event.progressMirrorWrite c1 :: Event.progressWriterWrite c2
        :: Event.scopeBegin :: l).takeWhile notScope
      = [Event.progressMirrorWrite c1, Event.progressWriterWrite c2] := rfl

/-! ## The claims -/

/-- Claim C1: for every blueprint, every worker constructs the same
sequence of operators.  The operator-construction trace of
`build_production_dataflow` depends only on the blueprint step list
(with its blueprint-level builder results) and never on the worker
index or worker count: two runs over the same blueprint with different
worker identities produce identical operator-construction traces. -/
theorem c1_symmetric_construction (flow : List Step) (rf : ResumeFrom) (rs : FlowStateBytes)
    (ctx ctx2 : WorkerCtx) :
    opTrace (build_production_dataflow ctx flow rf rs).2.1
      = opTrace (build_production_dataflow ctx2 flow rf rs).2.1 := by
  cases h : (runSteps flow (initBState rs)).2.2 with
  | none =>
    simp only [build_production_dataflow, h]
    split_ifs <;> simp [opTrace, initEvents, List.filterMap_append]
  | some e =>
    simp [build_production_dataflow, h, opTrace, initEvents, List.filterMap_append]

/-- Claim C7: in every invocation of `build_production_dataflow`,
before the Timely scope is entered, exactly one initialization progress
change `KChange(WorkerKey(ex, worker_index), Upsert(Init(worker_count,
resume_epoch)))` is written, first to the in-memory progress mirror and
then to the durable progress writer, and no other write to either
happens anywhere in the invocation. -/
theorem c7_initial_progress_write (ctx : WorkerCtx) (flow : List Step) (rf : ResumeFrom)
    (rs : FlowStateBytes) :
    ((build_production_dataflow ctx flow rf rs).2.1).takeWhile notScope
        = [Event.progressMirrorWrite (initProgressChange ctx rf),
           Event.progressWriterWrite (initProgressChange ctx rf)]
    ∧ ((build_production_dataflow ctx flow rf rs).2.1).filter isProgressMirrorWrite
        = [Event.progressMirrorWrite (initProgressChange ctx rf)]
    ∧ ((build_production_dataflow ctx flow rf rs).2.1).filter isProgressWriterWrite
        = [Event.progressWriterWrite (initProgressChange ctx rf)] := by
  cases h : (runSteps flow (initBState rs)).2.2 with
  | none =>
    simp only [build_production_dataflow, h]
    split_ifs <;>
      simp [takeWhile_progress_cons, initEvents, List.filter_append,
        mirror_not_in_loop, writer_not_in_loop,
        isProgressMirrorWrite, isProgressWriterWrite]
  | some e =>
    simp [build_production_dataflow, h, takeWhile_progress_cons, initEvents,
      List.filter_append, mirror_not_in_loop, writer_not_in_loop,
      isProgressMirrorWrite, isProgressWriterWrite]

/-- Claim C2: when the step loop completes, a blueprint that registered
zero inputs fails with the missing-input `ValueError` (the ConfigError
of the specification taxonomy), and one that registered inputs but zero
outputs fails with the missing-output `ValueError`; in both cases no
recovery attachment is performed. -/
theorem c2_missing_io_validation (ctx : WorkerCtx) (flow : List Step) (rf : ResumeFrom)
    (rs : FlowStateBytes)
    (hdone : (runSteps flow (initBState rs)).2.2 = none) :
    ((runSteps flow (initBState rs)).1.inputs = 0 →
        (build_production_dataflow ctx flow rf rs).2.2
            = some (BuildErr.valueError "Dataflow needs to contain at least one input")
        ∧ Event.attached ∉ (build_production_dataflow ctx flow rf rs).2.1)
    ∧ ((runSteps flow (initBState rs)).1.inputs ≠ 0 →
        (runSteps flow (initBState rs)).1.outputs = 0 →
        (build_production_dataflow ctx flow rf rs).2.2
            = some (BuildErr.valueError "Dataflow needs to contain at least one output")
        ∧ Event.attached ∉ (build_production_dataflow ctx flow rf rs).2.1) := by
  constructor
  · intro hin
    simp only [build_production_dataflow, hdone, hin]
    refine ⟨rfl, fun hmem => ?_⟩
    rcases List.mem_append.mp hmem with h2 | h2
    · simp [initEvents] at h2
    · exact attached_not_in_loop flow (initBState rs) h2
  · intro hin hout
    simp only [build_production_dataflow, hdone, hout, if_neg hin]
    refine ⟨rfl, fun hmem => ?_⟩
    rcases List.mem_append.mp hmem with h2 | h2
    · simp [initEvents] at h2
    · exact attached_not_in_loop flow (initBState rs) h2

/-- Witness for C2 at two concrete blueprints: the empty blueprint
fails for missing inputs, and an input-only blueprint fails for missing
outputs. -/
theorem c2_missing_io_validation_witness :
    ((build_production_dataflow ⟨0, 1⟩ [] ⟨0, 0⟩ []).2.2
        = some (BuildErr.valueError "Dataflow needs to contain at least one input"))
    ∧ ((build_production_dataflow ⟨0, 1⟩
          [Step.input "in" (InputConf.partitioned true [])] ⟨0, 0⟩ []).2.2
        = some (BuildErr.valueError "Dataflow needs to contain at least one output")) :=
  ⟨((c2_missing_io_validation ⟨0, 1⟩ [] ⟨0, 0⟩ [] rfl).1 rfl).1,
   ((c2_missing_io_validation ⟨0, 1⟩ [Step.input "in" (InputConf.partitioned true [])]
      ⟨0, 0⟩ [] rfl).2 (by decide) rfl).1⟩

/-- Claim C4: every stateful step removes exactly its own step id from
the resume state (the residual state is the initial state filtered to
the step ids of no stateful step); when the loop completes and the
input and output checks pass, compilation succeeds, a warning listing
exactly the remaining orphan step ids is emitted whenever the residual
state is non-empty, and no warning is emitted when it is empty. -/
theorem c4_state_consumption (ctx : WorkerCtx) (flow : List Step) (rf : ResumeFrom)
    (rs : FlowStateBytes)
    (hdone : (runSteps flow (initBState rs)).2.2 = none)
    (hin : (runSteps flow (initBState rs)).1.inputs ≠ 0)
    (hout : (runSteps flow (initBState rs)).1.outputs ≠ 0) :
    (build_production_dataflow ctx flow rf rs).2.2 = none
    ∧ (build_production_dataflow ctx flow rf rs).1.resumeState
        = rs.filter (fun kv => decide (kv.1 ∉ statefulIds flow))
    ∧ ((build_production_dataflow ctx flow rf rs).1.resumeState ≠ [] →
        Event.warned ((build_production_dataflow ctx flow rf rs).1.resumeState.map Prod.fst)
          ∈ (build_production_dataflow ctx flow rf rs).2.1)
    ∧ ((build_production_dataflow ctx flow rf rs).1.resumeState = [] →
        ∀ ks, Event.warned ks ∉ (build_production_dataflow ctx flow rf rs).2.1) := by
  have hres := runSteps_resumeState flow (initBState rs) hdone
  have hloop := warned_not_in_loop flow (initBState rs)
  have hbuild : build_production_dataflow ctx flow rf rs
      = ((runSteps flow (initBState rs)).1,
         initEvents ctx rf ++ (runSteps flow (initBState rs)).2.1
           ++ (if (runSteps flow (initBState rs)).1.resumeState.isEmpty then []
               else [Event.warned
                 ((runSteps flow (initBState rs)).1.resumeState.map Prod.fst)])
           ++ [Event.opBuilt (OpTag.concatenate (runSteps flow (initBState rs)).1.stepChanges),
               Event.opBuilt (OpTag.concatenate (runSteps flow (initBState rs)).1.outputs),
               Event.attached],
         none) := by
    simp [build_production_dataflow, hdone, if_neg hin, if_neg hout]
  refine ⟨by rw [hbuild], by rw [hbuild]; exact hres, ?_, ?_⟩
  · intro hne
    rw [hbuild] at hne ⊢
    have hne2 : (runSteps flow (initBState rs)).1.resumeState.isEmpty = false := by
      rcases hcase : (runSteps flow (initBState rs)).1.resumeState with _ | ⟨kv, tl⟩
      · exact absurd hcase hne
      · rfl
    simp [hne2]
  · intro hemp ks hmem
    rw [hbuild] at hemp hmem
    rw [hemp] at hmem
    simp [initEvents] at hmem
    exact hloop ks hmem

/-- Witness for C4: a blueprint with a partitioned input and a
partitioned output run against resume state holding one orphan entry;
compilation succeeds and the warning names the orphan. -/
theorem c4_state_consumption_witness :
    (build_production_dataflow ⟨0, 1⟩
        [Step.input "in" (InputConf.partitioned true []),
         Step.output "out" (OutputConf.partitioned true [])] ⟨0, 0⟩
        [("orphan", [1])]).2.2 = none
    ∧ Event.warned ["orphan"]
        ∈ (build_production_dataflow ⟨0, 1⟩
            [Step.input "in" (InputConf.partitioned true []),
             Step.output "out" (OutputConf.partitioned true [])] ⟨0, 0⟩
            [("orphan", [1])]).2.1 := by
  have h := c4_state_consumption ⟨0, 1⟩
      [Step.input "in" (InputConf.partitioned true []),
       Step.output "out" (OutputConf.partitioned true [])] ⟨0, 0⟩
      [("orphan", [1])] (by decide) (by decide) (by decide)
  exact ⟨h.1, h.2.2.1 (by decide)⟩

/-- Claim C6: an Input step whose source is neither partitioned nor
dynamic, and an Output step whose sink is neither, abort compilation at
that step with the corresponding `TypeError`; the event trace stops at
the events of the preceding steps, so no operator is constructed for
the failing step (nor for any later step). -/
theorem c6_unknown_io_type (ctx : WorkerCtx) (rf : ResumeFrom) (rs : FlowStateBytes)
    (pre rest : List Step) (sid1 sid2 : StepId)
    (hpre : (runSteps pre (initBState rs)).2.2 = none) :
    ((build_production_dataflow ctx (pre ++ Step.input sid1 InputConf.unknown :: rest)
        rf rs).2.2 = some (BuildErr.typeError "unknown input type")
      ∧ (build_production_dataflow ctx (pre ++ Step.input sid1 InputConf.unknown :: rest)
          rf rs).2.1 = initEvents ctx rf ++ (runSteps pre (initBState rs)).2.1)
    ∧ ((build_production_dataflow ctx (pre ++ Step.output sid2 OutputConf.unknown :: rest)
        rf rs).2.2 = some (BuildErr.typeError "unknown output type")
      ∧ (build_production_dataflow ctx (pre ++ Step.output sid2 OutputConf.unknown :: rest)
          rf rs).2.1 = initEvents ctx rf ++ (runSteps pre (initBState rs)).2.1) := by
  have hbad1 : runSteps (Step.input sid1 InputConf.unknown :: rest)
      (runSteps pre (initBState rs)).1
      = ((runSteps pre (initBState rs)).1, [],
         some (BuildErr.typeError "unknown input type")) :=
    runSteps_cons_err _ rest _ rfl
  have hbad2 : runSteps (Step.output sid2 OutputConf.unknown :: rest)
      (runSteps pre (initBState rs)).1
      = ((runSteps pre (initBState rs)).1, [],
         some (BuildErr.typeError "unknown output type")) :=
    runSteps_cons_err _ rest _ rfl
  have hall1 := runSteps_append_ok pre (Step.input sid1 InputConf.unknown :: rest)
      (initBState rs) hpre
  have hall2 := runSteps_append_ok pre (Step.output sid2 OutputConf.unknown :: rest)
      (initBState rs) hpre
  rw [hbad1] at hall1
  rw [hbad2] at hall2
  constructor
  · simp [build_production_dataflow, hall1]
  · simp [build_production_dataflow, hall2]

/-- Witness for C6: a blueprint consisting of a single unrecognized
input fails with the unknown-input `TypeError`. -/
theorem c6_unknown_io_type_witness :
    (build_production_dataflow ⟨0, 1⟩ [Step.input "x" InputConf.unknown] ⟨0, 0⟩ []).2.2
      = some (BuildErr.typeError "unknown input type") :=
  ((c6_unknown_io_type ⟨0, 1⟩ ⟨0, 0⟩ [] [] [] "x" "y" rfl).1).1

/-- Claim C5: the stream carried downstream of a windowed step contains
exactly the wrapped `(key, value)` pairs for which the windowed
operator emitted `(key, Ok(value))`; every `(key, Err(..))` (late data)
is dropped.  The last conjunct ties the chain to all three windowed
step arms of the compiler. -/
theorem c5_windowed_drop_late (out : List (StateKey × Except WindowError PyObj)) :
    windowStepDownstream out
      = (out.filterMap (fun kr =>
          match kr.2 with
          | Except.ok v => some (kr.1, v)
          | Except.error _ => none)).map wrap_state_pair
    ∧ (∀ k v, wrap_state_pair (k, v) ∈ windowStepDownstream out ↔ (k, Except.ok v) ∈ out)
    ∧ (∀ x ∈ windowStepDownstream out, ∃ k v, x = wrap_state_pair (k, v) ∧ (k, Except.ok v) ∈ out)
    ∧ (∀ (sid : StepId) (st : BState),
        (runStep (Step.collectWindow sid true true out) st).1.stream = windowStepDownstream out
        ∧ (runStep (Step.foldWindow sid true true out) st).1.stream = windowStepDownstream out
        ∧ (runStep (Step.reduceWindow sid true true out) st).1.stream
            = windowStepDownstream out) := by
  have hmain : windowStepDownstream out
      = (out.filterMap (fun kr =>
          match kr.2 with
          | Except.ok v => some (kr.1, v)
          | Except.error _ => none)).map wrap_state_pair := by
    induction out with
    | nil => rfl
    | cons kr rest ih =>
      rcases kr with ⟨k, r⟩
      cases r with
      | ok v =>
        simpa [windowStepDownstream, streamOk, rekeyWindowResult,
          List.filterMap_cons] using ih
      | error e =>
        simpa [windowStepDownstream, streamOk, rekeyWindowResult,
          List.filterMap_cons] using ih
  refine ⟨hmain, ?_, ?_, fun sid st => ⟨rfl, rfl, rfl⟩⟩
  · intro k v
    rw [hmain]
    simp only [List.mem_map, List.mem_filterMap]
    constructor
    · rintro ⟨⟨k2, v2⟩, ⟨⟨k3, r3⟩, hmem3, heq3⟩, heq⟩
      cases r3 <;> simp_all [wrap_state_pair]
    · intro hmem
      exact ⟨(k, v), ⟨(k, Except.ok v), hmem, rfl⟩, rfl⟩
  · intro x hx
    rw [hmain] at hx
    rcases List.mem_map.mp hx with ⟨⟨k2, v2⟩, hmem2, heq⟩
    rcases List.mem_filterMap.mp hmem2 with ⟨⟨k3, r3⟩, hmem3, heq3⟩
    cases r3 with
    | ok v3 =>
      refine ⟨k2, v2, heq.symm, ?_⟩
      simp only [Option.some.injEq, Prod.mk.injEq] at heq3
      rcases heq3 with ⟨h1, h2⟩
      rw [← h1, ← h2]
      exact hmem3
    | error e3 => simp at heq3

/-- Witness for C5: with one on-time and one late emission, the on-time
pair is downstream. -/
theorem c5_windowed_drop_late_witness :
    wrap_state_pair ("k", PyObj.int 1)
      ∈ windowStepDownstream
          [("k", Except.ok (PyObj.int 1)), ("k", Except.error (WindowError.late 0))] :=
  ((c5_windowed_drop_late
      [("k", Except.ok (PyObj.int 1)), ("k", Except.error (WindowError.late 0))]).2.1
    "k" (PyObj.int 1)).mpr (List.mem_cons_self _ _)

/-- Claim C8: the stream downstream of a FilterMap step is the input
stream with the mapper applied and every null-sentinel record removed;
a record survives the step exactly when its mapped value is not null.
The last conjunct ties the chain to the FilterMap arm of the compiler. -/
theorem c8_filter_map_null_sentinel (m : PyObj → PyObj) (s : List PyObj) :
    filterMapStep m s = (s.filter (fun x => decide (m x ≠ PyObj.none))).map m
    ∧ (∀ x ∈ s, (m x ∈ filterMapStep m s ↔ m x ≠ PyObj.none))
    ∧ (∀ y ∈ filterMapStep m s, y ≠ PyObj.none)
    ∧ (∀ st : BState, (runStep (Step.filterMap m) st).1.stream = filterMapStep m st.stream) := by
  have hnone : ∀ y ∈ filterMapStep m s, y ≠ PyObj.none := by
    intro y hy
    have hy2 : y ∈ (s.map m).filter (fun item => decide (item ≠ PyObj.none)) := hy
    have hp : (fun item => decide (item ≠ PyObj.none)) y = true := (List.mem_filter.mp hy2).2
    exact of_decide_eq_true hp
  refine ⟨?_, ?_, hnone, fun st => rfl⟩
  · simp [filterMapStep, List.filter_map, Function.comp_def]
  · intro x hx
    constructor
    · intro hmem
      exact hnone (m x) hmem
    · intro hne
      exact List.mem_filter.mpr ⟨List.mem_map_of_mem m hx, decide_eq_true hne⟩

/-- Witness for C8: with the identity mapper, a non-null record
survives the step. -/
theorem c8_filter_map_null_sentinel_witness :
    PyObj.int 1 ∈ filterMapStep (fun x => x) [PyObj.none, PyObj.int 1] :=
  ((c8_filter_map_null_sentinel (fun x => x) [PyObj.none, PyObj.int 1]).2.1
    (PyObj.int 1) (by decide)).mpr (by decide)

/-- Claim C3: a `spawn_cluster` call from the official launcher that
specifies both local topology (`processes` or `workers_per_process`)
and cluster placement (`process_id` or `addresses`) returns the
conflict `RuntimeError` before any worker plan is produced; a call that
specifies at most one side passes the conflict check. -/
theorem c3_spawn_cluster_conflict (args : SpawnArgs) (h : args.inBytewaxRun = true) :
    (((args.processes.isSome || args.workersPerProcess.isSome)
        && (args.processId.isSome || args.addresses.isSome)) = true →
      spawn_cluster args = Except.error (SpawnErr.runtimeError conflictErrMsg))
    ∧ (((args.processes.isSome || args.workersPerProcess.isSome)
        && (args.processId.isSome || args.addresses.isSome)) = false →
      spawn_cluster args ≠ Except.error (SpawnErr.runtimeError conflictErrMsg)) := by
  constructor
  · intro hc
    simp [spawn_cluster, h, hc]
  · intro hc
    simp only [spawn_cluster, h, hc]
    rcases hp : args.processId with _ | pid
    · rcases he : args.envProcId with _ | epid <;> simp <;> split_ifs <;> simp
    · simp

/-- Witness for C3: `processes = 2` together with `process_id = 0`
triggers the conflict error. -/
theorem c3_spawn_cluster_conflict_witness :
    spawn_cluster
        { processes := some 2, workersPerProcess := none, processId := some 0,
          addresses := none, inBytewaxRun := true, envProcId := none }
      = Except.error (SpawnErr.runtimeError conflictErrMsg) :=
  (c3_spawn_cluster_conflict
      { processes := some 2, workersPerProcess := none, processId := some 0,
        addresses := none, inBytewaxRun := true, envProcId := none } rfl).1 rfl

/-- Claim C9: `cluster_main` builds its communication fabric in-process
exactly when the supplied address list is absent or empty, and as a TCP
cluster configuration carrying the given thread count, process index,
and address list exactly when at least one address is supplied. -/
theorem c9_cluster_main_fabric (addresses : Option (List String))
    (procId workerCountPerProc : Nat) :
    (clusterMainCommConfig addresses procId workerCountPerProc
        = CommunicationConfig.process workerCountPerProc
      ↔ (addresses = none ∨ addresses = some []))
    ∧ (∀ addrs, addresses = some addrs → addrs ≠ [] →
        clusterMainCommConfig addresses procId workerCountPerProc
          = CommunicationConfig.cluster workerCountPerProc procId addrs) := by
  constructor
  · rcases addresses with _ | addrs
    · simp [clusterMainCommConfig]
    · rcases addrs with _ | ⟨a, tl⟩ <;> simp [clusterMainCommConfig]
  · rintro addrs rfl hne
    rcases addrs with _ | ⟨a, tl⟩
    · exact absurd rfl hne
    · simp [clusterMainCommConfig]

/-- Witness for C9: no addresses gives the in-process fabric; one
address gives the TCP cluster fabric. -/
theorem c9_cluster_main_fabric_witness :
    clusterMainCommConfig none 0 3 = CommunicationConfig.process 3
    ∧ clusterMainCommConfig (some ["localhost:2101"]) 1 2
        = CommunicationConfig.cluster 2 1 ["localhost:2101"] :=
  ⟨((c9_cluster_main_fabric none 0 3).1).mpr (Or.inl rfl),
   (c9_cluster_main_fabric (some ["localhost:2101"]) 1 2).2
     ["localhost:2101"] rfl (by decide)⟩

/-- Claim C10: a `spawn_cluster` call from the official launcher that
passes the conflict check with no `process_id`, no
`__BYTEWAX_PROC_ID`, and effective `processes = 1` and
`workers_per_process = 1` delegates to `run_main`: one worker on the
calling thread, no cluster addresses, no child processes. -/
theorem c10_spawn_delegates_run_main (args : SpawnArgs)
    (hrun : args.inBytewaxRun = true)
    (hconflict : ((args.processes.isSome || args.workersPerProcess.isSome)
        && (args.processId.isSome || args.addresses.isSome)) = false)
    (hpid : args.processId = none)
    (_henv : args.envProcId = none)
    (hp : args.processes.getD 1 = 1)
    (hw : args.workersPerProcess.getD 1 = 1) :
    spawn_cluster args = Except.ok SpawnPlan.runMain
    ∧ planWorkerThreads SpawnPlan.runMain = 1
    ∧ planChildProcesses SpawnPlan.runMain = 0
    ∧ planClusterAddresses SpawnPlan.runMain = [] := by
  refine ⟨?_, rfl, rfl, rfl⟩
  simp [spawn_cluster, hrun, hconflict, hpid, hp, hw]
  intro hor
  rcases ha : args.addresses with _ | addrs
  · rfl
  · rw [ha] at hconflict
    rcases hor with h1 | h1 <;> simp [h1] at hconflict

/-- Witness for C10: all-default arguments from the launcher delegate
to `run_main`. -/
theorem c10_spawn_delegates_run_main_witness :
    spawn_cluster
        { processes := none, workersPerProcess := none, processId := none,
          addresses := none, inBytewaxRun := true, envProcId := none }
      = Except.ok SpawnPlan.runMain :=
  (c10_spawn_delegates_run_main
      { processes := none, workersPerProcess := none, processId := none,
        addresses := none, inBytewaxRun := true, envProcId := none }
      rfl rfl rfl rfl rfl rfl).1

end Bytewax
